import Mathlib

/-!
Shallow embedding of the Risk Scoring, Mitigation Aggregation and Query
Engine core of the odyn-0.2 repository, together with theorems settling
the claims about it.

The embedded functions mirror, definition by definition:
* `src/src/components/RiskManagement.tsx` — `getRiskLevel`,
  `filteredRisks`, `riskStats`, `logAuditEvent`, `handleDeleteRisk`;
* `src/src/components/AddAssetForm.tsx` — the effective-score
  computation inside `handleSubmit` (`totalRiskReduction`,
  `effectiveRiskScore`, `updatedRiskScore`, `finalAssetData`) and the
  estimator-failure fallback.

JavaScript numbers holding integer risk scores are modelled as `Int`;
the single floating-point computation (the average in `riskStats`,
`Math.round` of an integer sum divided by a small count) is modelled
exactly over `ℚ` with JavaScript's round-half-up (`Math.round x =
⌊x + 1/2⌋`), which agrees with the float computation on the integer
domain in use. Asynchronous calls that can fail (supabase writes, the
AI estimator) are modelled as `Except` values passed in by the caller.
-/

namespace Odyn

namespace RiskManagement

/-- One row of the `risks` table, restricted to the fields the core
logic reads (`id`, `title`, `description`, `category`, `status`,
`risk_score`); presentation-only columns (owner, dates, mitigation
plan) are omitted. `risk_score` is an integer by the data model. -/
structure RiskRow where
  id : String
  title : String
  description : String
  category : String
  status : String
  risk_score : Int
deriving Repr, DecidableEq

/-- `getRiskLevel` (RiskManagement.tsx lines 250–255): the severity
classifier mapping a score to a band name. -/
def getRiskLevel (score : Int) : String :=
  if score ≤ 5 then "Low"
  else if score ≤ 12 then "Medium"
  else if score ≤ 20 then "High"
  else "Critical"

/-- JavaScript `s.toLowerCase()`: lower each character (written as a
structural map over the string's characters so that it computes). -/
def toLowerCase (s : String) : String :=
  ⟨s.data.map Char.toLower⟩

/-- JavaScript `hay.includes(pat)`: `pat` occurs as a contiguous
substring of `hay` (the empty pattern matches every string). -/
def jsIncludes (hay pat : String) : Bool :=
  decide (pat.data <:+: hay.data)

/-- The four filter controls of the risk list view (`searchTerm`,
`filterCategory`, `filterStatus`, `filterRiskLevel`), each a string
with sentinel `"all"` (resp. the empty search term). -/
structure FilterConfig where
  searchTerm : String
  filterCategory : String
  filterStatus : String
  filterRiskLevel : String
deriving Repr, DecidableEq

/-- `matchesSearch` (lines 280–281): case-insensitive substring match
of the search term against title or description. -/
def matchesSearch (searchTerm title description : String) : Bool :=
  jsIncludes (toLowerCase title) (toLowerCase searchTerm) ||
    jsIncludes (toLowerCase description) (toLowerCase searchTerm)

/-- `matchesCategory` (line 282). -/
def matchesCategory (filterCategory category : String) : Bool :=
  filterCategory == "all" || category == filterCategory

/-- `matchesStatus` (line 283). -/
def matchesStatus (filterStatus status : String) : Bool :=
  filterStatus == "all" || status == filterStatus

/-- `matchesRiskLevel` (lines 285–289): band membership of the score,
defaulting to `true` for any unrecognised tag (including `"all"`). -/
def matchesRiskLevel (filterRiskLevel : String) (risk_score : Int) : Bool :=
  if filterRiskLevel == "low" then decide (risk_score ≤ 5)
  else if filterRiskLevel == "medium" then
    decide (5 < risk_score) && decide (risk_score ≤ 12)
  else if filterRiskLevel == "high" then
    decide (12 < risk_score) && decide (risk_score ≤ 20)
  else if filterRiskLevel == "critical" then decide (20 < risk_score)
  else true

/-- The conjunction of the four predicates (line 291). -/
def riskMatches (cfg : FilterConfig) (risk : RiskRow) : Bool :=
  matchesSearch cfg.searchTerm risk.title risk.description &&
    matchesCategory cfg.filterCategory risk.category &&
    matchesStatus cfg.filterStatus risk.status &&
    matchesRiskLevel cfg.filterRiskLevel risk.risk_score

/-- `filteredRisks` (lines 279–292): the filtered view of the risk
collection. -/
def filteredRisks (cfg : FilterConfig) (risks : List RiskRow) : List RiskRow :=
  risks.filter (riskMatches cfg)

/-- JavaScript `Math.round`: round half toward positive infinity. -/
def jsRound (q : ℚ) : Int := ⌊q + 1 / 2⌋

/-- `risks.reduce((sum, r) => sum + r.risk_score, 0)` (line 321). -/
def sumScores (risks : List RiskRow) : Int :=
  risks.foldl (fun sum r => sum + r.risk_score) 0

/-- The summary-statistics record (lines 314–322). -/
structure RiskStats where
  total : Nat
  critical : Nat
  high : Nat
  medium : Nat
  low : Nat
  «open» : Nat
  avgScore : Int
deriving Repr, DecidableEq

/-- `riskStats` (lines 314–322), a function of the unfiltered full
collection only (the filter configuration is not an input): per-band
counts, open count (status not `closed` or `mitigated`) and the
rounded average score (0 on an empty collection). -/
def riskStats (risks : List RiskRow) : RiskStats :=
  { total := risks.length
    critical := (risks.filter (fun r => decide (20 < r.risk_score))).length
    high := (risks.filter (fun r =>
      decide (12 < r.risk_score) && decide (r.risk_score ≤ 20))).length
    medium := (risks.filter (fun r =>
      decide (5 < r.risk_score) && decide (r.risk_score ≤ 12))).length
    low := (risks.filter (fun r => decide (r.risk_score ≤ 5))).length
    «open» := (risks.filter (fun r =>
      !(["closed", "mitigated"].contains r.status))).length
    avgScore :=
      if 0 < risks.length then
        jsRound ((sumScores risks : ℚ) / (risks.length : ℚ))
      else 0 }

/-- A minimal risk row carrying a given score, for evaluating the
statistics on concrete collections. -/
def mkRisk (n : Int) : RiskRow :=
  { id := "", title := "", description := "", category := ""
    status := "", risk_score := n }

/-- The pre-delete snapshot selected by `handleDeleteRisk`
(lines 201–205): `title, category, risk_score, status` of the row. -/
structure RiskSnapshot where
  title : String
  category : String
  risk_score : Int
  status : String
deriving Repr, DecidableEq

/-- The `details` payload passed on deletion (lines 218–222):
`risk_title`, and `risk_details` holding the snapshot or the empty
object (`riskData || \x7b\x7d`, modelled as `none`); the wall-clock
`deleted_at` timestamp is omitted. -/
structure DeleteDetails where
  risk_title : String
  risk_details : Option RiskSnapshot
deriving Repr, DecidableEq

/-- The row inserted into `audit_logs` (lines 84–93), generic in the
`details` payload type; the environment-dependent `ip_address`
(always null) and `user_agent` columns are omitted. -/
structure AuditEventRec (δ : Type) where
  user_id : Option String
  organization_id : String
  action : String
  resource_type : String
  resource_id : Option String
  details : Option δ
deriving Repr, DecidableEq

/-- What a call to `logAuditEvent` did: whether it warned and skipped
for lack of an organization id, which insert it attempted (if any),
and whether a failed insert was logged. -/
structure AuditOutcome (δ : Type) where
  warnedNoOrg : Bool
  attemptedWrite : Option (AuditEventRec δ)
  errorLogged : Bool
deriving Repr, DecidableEq

/-- `logAuditEvent` (lines 77–101). The supabase insert is modelled by
the caller-supplied `storeInsert`; its failure is caught and logged
(`errorLogged`), never rethrown, so the result type `Except` is always
`.ok`. Without an organization id the write is skipped with a warning. -/
def logAuditEvent {δ : Type} (userId : Option String)
    (profileOrg : Option String)
    (storeInsert : AuditEventRec δ → Except String Unit)
    (action : String) (resourceId : Option String) (details : Option δ) :
    Except String (AuditOutcome δ) :=
  match profileOrg with
  | none => .ok { warnedNoOrg := true, attemptedWrite := none, errorLogged := false }
  | some org =>
    let ev : AuditEventRec δ :=
      { user_id := userId, organization_id := org, action := action
        resource_type := "risk", resource_id := resourceId, details := details }
    match storeInsert ev with
    | .ok _ => .ok { warnedNoOrg := false, attemptedWrite := some ev, errorLogged := false }
    | .error _ => .ok { warnedNoOrg := false, attemptedWrite := some ev, errorLogged := true }

/-- The snapshot fetch of `handleDeleteRisk` (lines 201–205): select
the row with the given id from the current store, keeping the four
audited columns. -/
def preDeleteSnapshot (store : List RiskRow) (riskId : String) :
    Option RiskSnapshot :=
  (store.find? (fun r => r.id == riskId)).map
    (fun r => { title := r.title, category := r.category
                risk_score := r.risk_score, status := r.status })

/-- The observable outcome of `handleDeleteRisk`: the resulting risk
collection, the audit-log inserts attempted, and the error banner
message if any. -/
structure DeleteOutcome where
  risks : List RiskRow
  events : List (AuditEventRec DeleteDetails)
  errorMsg : Option String
deriving Repr, DecidableEq

/-- `handleDeleteRisk` (lines 191–236). `confirmed` is the result of
the confirmation dialog, `deleteResult` the outcome of the store
delete, `auditInsert` the audit store. The snapshot is fetched before
the delete; on a delete error the flow aborts with an error message
and no audit event; otherwise the row is removed and exactly one
audit insert is attempted via `logAuditEvent` (which swallows its own
failures; its unreachable `.error` branch mirrors the outer catch,
where the store delete has already executed). -/
def handleDeleteRisk (confirmed : Bool) (userId : Option String)
    (profileOrg : Option String)
    (auditInsert : AuditEventRec DeleteDetails → Except String Unit)
    (deleteResult : Except String Unit)
    (store : List RiskRow) (riskId : String) (riskTitle : String) :
    DeleteOutcome :=
  if !confirmed then { risks := store, events := [], errorMsg := none }
  else
    let riskData := preDeleteSnapshot store riskId
    match deleteResult with
    | .error e => { risks := store, events := [], errorMsg := some e }
    | .ok _ =>
      let risks' := store.filter (fun r => !(r.id == riskId))
      match logAuditEvent userId profileOrg auditInsert "risk_deleted"
          (some riskId) (some { risk_title := riskTitle, risk_details := riskData }) with
      | .ok o => { risks := risks', events := o.attemptedWrite.toList, errorMsg := none }
      | .error e => { risks := risks', events := [], errorMsg := some e }

end RiskManagement

namespace AddAssetForm

/-- `AppliedMitigation` (types/mitigation): an identifier, a
description, and a non-negativity-unchecked integer reduction score. -/
structure AppliedMitigation where
  id : String
  description : String
  applied_risk_reduction_score : Int
deriving Repr, DecidableEq

/-- The five weighted component scores of an AI risk score
(AddAssetForm.tsx lines 54–60). -/
structure AIComponents where
  physicalSecurity : Int
  cyberSecurity : Int
  accessControl : Int
  environmentalRisk : Int
  personnelRisk : Int
deriving Repr, DecidableEq

/-- Next-week / next-month predictions (lines 64–67). -/
structure Predictions where
  nextWeek : Int
  nextMonth : Int
deriving Repr, DecidableEq

/-- The `ai_risk_score` composite (lines 52–68): overall score,
component breakdown, trend tag, confidence, predictions and optional
explanation; the wall-clock `lastUpdated` timestamp is omitted. -/
structure AIRiskScore where
  overall : Int
  components : AIComponents
  trend : String
  confidence : Int
  predictions : Predictions
  explanation : Option String
deriving Repr, DecidableEq

/-- The caller-supplied default base-score structure from the form's
initial state (lines 52–68). -/
def defaultAiRiskScore : AIRiskScore :=
  { overall := 25
    components :=
      { physicalSecurity := 20, cyberSecurity := 30, accessControl := 15
        environmentalRisk := 25, personnelRisk := 20 }
    trend := "stable"
    confidence := 85
    predictions := { nextWeek := 26, nextMonth := 24 }
    explanation := none }

/-- The estimator's response (`aiService.scoreAssetRisk`): `score` and
`confidence` are required; `components`, `trend`, `predictions` and
`explanation` may be absent (absent-or-falsy modelled as `none`). -/
structure AIResult where
  score : Int
  components : Option AIComponents
  trend : Option String
  confidence : Int
  predictions : Option Predictions
  explanation : Option String
deriving Repr, DecidableEq

/-- `mitigations.reduce((sum, m) => sum + m.applied_risk_reduction_score, 0)`
(lines 199–202). -/
def totalRiskReduction (mitigations : List AppliedMitigation) : Int :=
  mitigations.foldl (fun sum m => sum + m.applied_risk_reduction_score) 0

/-- `Math.max(0, aiRiskScore.overall - totalRiskReduction)` (line 205). -/
def effectiveRiskScore (base : Int) (mitigations : List AppliedMitigation) : Int :=
  max 0 (base - totalRiskReduction mitigations)

/-- The risk score written into the new asset (lines 208–214): the
resolved AI score with `overall` replaced by the effective score and
the extra fields `mitigationApplied`, `originalScore`,
`totalRiskReduction`. -/
structure UpdatedRiskScore where
  overall : Int
  components : AIComponents
  trend : String
  confidence : Int
  predictions : Predictions
  explanation : Option String
  mitigationApplied : Bool
  originalScore : Int
  totalRiskReduction : Int
deriving Repr, DecidableEq

/-- `updatedRiskScore` (lines 208–214): spread of the resolved AI risk
score with the effective overall score, retaining the ungated base
score (`originalScore`) and the total reduction alongside it. -/
def updatedRiskScore (ai : AIRiskScore) (mitigations : List AppliedMitigation) :
    UpdatedRiskScore :=
  { overall := effectiveRiskScore ai.overall mitigations
    components := ai.components
    trend := ai.trend
    confidence := ai.confidence
    predictions := ai.predictions
    explanation := ai.explanation
    mitigationApplied := decide (0 < totalRiskReduction mitigations)
    originalScore := ai.overall
    totalRiskReduction := totalRiskReduction mitigations }

/-- Asset location (lines 40–45): address, city, country; the
floating-point coordinate pair is presentation data and omitted. -/
structure Location where
  address : String
  city : String
  country : String
deriving Repr, DecidableEq

/-- Responsible officer (lines 87–92). -/
structure ResponsibleOfficer where
  name : String
  email : String
  phone : String
  department : String
deriving Repr, DecidableEq

/-- The slice of the form state `handleSubmit` reads for validation and
for building the asset row: `name`, `type`, `location`, `status`, the
default `ai_risk_score`, and the responsible officer. Sub-forms not
read by any claim (personnel, security systems, compliance, incidents)
are omitted. -/
structure FormState where
  name : String
  type : String
  location : Location
  status : String
  ai_risk_score : AIRiskScore
  responsible_officer : ResponsibleOfficer
deriving Repr, DecidableEq

/-- The `assets` insert row built by `handleSubmit` (lines 216–229),
restricted to the embedded fields. -/
structure AssetInsert where
  organization_id : String
  name : String
  type : String
  location : Location
  status : String
  ai_risk_score : UpdatedRiskScore
  responsible_officer : ResponsibleOfficer
  mitigations : Option (List AppliedMitigation)
deriving Repr, DecidableEq

/-- `finalAssetData` (lines 216–229): the insert row; note line 228
stores `null` (here `none`) when the mitigation list is empty. -/
def finalAssetData (form : FormState) (mitigations : List AppliedMitigation)
    (profileOrg : Option String) (ai : AIRiskScore) : AssetInsert :=
  { organization_id := profileOrg.getD ""
    name := form.name
    type := form.type
    location := form.location
    status := form.status
    ai_risk_score := updatedRiskScore ai mitigations
    responsible_officer := form.responsible_officer
    mitigations := if 0 < mitigations.length then some mitigations else none }

/-- The try/catch around the estimator call (lines 173–196): on
success the AI result is adopted, with falsy/absent `components`,
`trend` and `predictions` falling back to the form defaults (the
`Math.random`-based prediction fallback is the caller-supplied
`randPred`); on any estimator error the default score is kept and the
flow continues. -/
def resolveAiRiskScore (defaultScore : AIRiskScore) (randPred : Predictions) :
    Except String AIResult → AIRiskScore
  | .ok r =>
    { overall := r.score
      components := r.components.getD defaultScore.components
      trend := r.trend.getD "stable"
      confidence := r.confidence
      predictions := r.predictions.getD randPred
      explanation := r.explanation }
  | .error _ => defaultScore

/-- `handleSubmit` (lines 144–237): validate the required fields, then
resolve the AI risk score (estimator failure contained), apply the
mitigations and build the insert row handed to `onSubmit`. -/
def handleSubmit (form : FormState) (mitigations : List AppliedMitigation)
    (profileOrg : Option String) (aiCall : Except String AIResult)
    (randPred : Predictions) : Except String AssetInsert :=
  if form.name = "" ∨ form.location.city = "" ∨ form.location.country = "" ∨
      form.responsible_officer.name = "" then
    .error "Please fill in all required fields"
  else
    .ok (finalAssetData form mitigations profileOrg
      (resolveAiRiskScore form.ai_risk_score randPred aiCall))

/-- A concrete, fully-validated form state used to evaluate the create
flow on explicit inputs. -/
def sampleForm : FormState :=
  { name := "HQ Building", type := "building"
    location := { address := "1 Main St", city := "Oslo", country := "Norway" }
    status := "secure"
    ai_risk_score := defaultAiRiskScore
    responsible_officer :=
      { name := "A. Officer", email := "officer@example.com", phone := ""
        department := "Security Operations" } }

end AddAssetForm

/-- Folding addition of a projection over a list, starting from `init`,
equals `init` plus the sum of the projected values. -/
lemma foldl_add_eq_sum {α : Type} (f : α → Int) (l : List α) :
    ∀ init : Int, l.foldl (fun sum x => sum + f x) init = init + (l.map f).sum := by
  induction l with
  | nil => intro init; simp
  | cons x t ih =>
    intro init
    simp [List.foldl_cons, ih]
    ring

end Odyn

namespace Odyn.RiskManagement

/-- C2: the severity classifier is a total, deterministic function of
the integer score (a Lean function by construction), and for every
integer score it returns `Low` iff s ≤ 5, `Medium` iff 6 ≤ s ≤ 12,
`High` iff 13 ≤ s ≤ 20, and `Critical` iff s ≥ 21 (scores above 25
still classify as `Critical` rather than failing). -/
theorem getRiskLevel_bands (s : Int) :
    (getRiskLevel s = "Low" ↔ s ≤ 5) ∧
    (getRiskLevel s = "Medium" ↔ 6 ≤ s ∧ s ≤ 12) ∧
    (getRiskLevel s = "High" ↔ 13 ≤ s ∧ s ≤ 20) ∧
    (getRiskLevel s = "Critical" ↔ 21 ≤ s) := by
  unfold getRiskLevel
  split_ifs with h1 h2 h3 <;>
    refine ⟨?_, ?_, ?_, ?_⟩ <;> simp <;> omega

/-- C3: for every collection and filter configuration, a record is in
the filtered result iff it is in the input collection and satisfies
all four predicates (conjunctive AND) — so the result is a subset of
the input and every excluded element fails at least one predicate —
and each predicate set to the sentinel `"all"` (resp. the empty
search term) matches every record. -/
theorem filteredRisks_spec (cfg : FilterConfig) (risks : List RiskRow) :
    (∀ r, r ∈ filteredRisks cfg risks ↔
      r ∈ risks ∧
      matchesSearch cfg.searchTerm r.title r.description = true ∧
      matchesCategory cfg.filterCategory r.category = true ∧
      matchesStatus cfg.filterStatus r.status = true ∧
      matchesRiskLevel cfg.filterRiskLevel r.risk_score = true) ∧
    (∀ title desc, matchesSearch "" title desc = true) ∧
    (∀ c, matchesCategory "all" c = true) ∧
    (∀ st, matchesStatus "all" st = true) ∧
    (∀ sc : Int, matchesRiskLevel "all" sc = true) := by
  refine ⟨?_, ?_, ?_, ?_, ?_⟩
  · intro r
    simp [filteredRisks, riskMatches, and_assoc]
  · intro title desc
    simp only [matchesSearch, jsIncludes, toLowerCase, List.map_nil,
      Bool.or_eq_true, decide_eq_true_eq]
    exact Or.inl ⟨[], List.map Char.toLower title.data, by simp⟩
  · intro c; simp [matchesCategory]
  · intro st; simp [matchesStatus]
  · intro sc; simp [matchesRiskLevel]

/-- C4: over the unfiltered full collection (the statistics are a
function of the collection alone), the per-band counts sum to the
total count; the open count is the number of records whose status is
not in \x7bmitigated, closed\x7d; the average is the arithmetic mean
of the scores rounded to the nearest integer (`Math.round`), which is
0 on the empty collection (no division by zero) and 15 on scores
[5, 15, 25]. -/
theorem riskStats_spec (risks : List RiskRow) :
    (riskStats risks).low + (riskStats risks).medium + (riskStats risks).high +
      (riskStats risks).critical = (riskStats risks).total ∧
    (riskStats risks).«open» =
      (risks.filter
        (fun r => decide (¬(r.status = "mitigated" ∨ r.status = "closed")))).length ∧
    (riskStats risks).avgScore =
      (if 0 < risks.length then
        jsRound ((((risks.map (fun r => r.risk_score)).sum : Int) : ℚ) /
          (risks.length : ℚ))
      else 0) ∧
    (riskStats []).avgScore = 0 ∧
    (riskStats [mkRisk 5, mkRisk 15, mkRisk 25]).avgScore = 15 := by
  refine ⟨?_, ?_, ?_, rfl, ?_⟩
  · simp only [riskStats]
    induction risks with
    | nil => rfl
    | cons r t ih =>
      rcases le_or_lt r.risk_score 5 with h1 | h1
      · have n1 : ¬ (5 < r.risk_score) := by omega
        have n2 : ¬ (12 < r.risk_score) := by omega
        have n3 : ¬ (20 < r.risk_score) := by omega
        simp [List.filter_cons, h1, n1, n2, n3]
        omega
      · rcases le_or_lt r.risk_score 12 with h2 | h2
        · have n1 : ¬ (r.risk_score ≤ 5) := by omega
          have n3 : ¬ (12 < r.risk_score) := by omega
          have n4 : ¬ (20 < r.risk_score) := by omega
          simp [List.filter_cons, h1, h2, n1, n3, n4]
          omega
        · rcases le_or_lt r.risk_score 20 with h3 | h3
          · have n1 : ¬ (r.risk_score ≤ 5) := by omega
            have n2 : ¬ (r.risk_score ≤ 12) := by omega
            have n4 : ¬ (20 < r.risk_score) := by omega
            simp [List.filter_cons, h1, h2, h3, n1, n2, n4]
            omega
          · have n1 : ¬ (r.risk_score ≤ 5) := by omega
            have n2 : ¬ (r.risk_score ≤ 12) := by omega
            have n3 : ¬ (r.risk_score ≤ 20) := by omega
            simp [List.filter_cons, h1, h2, h3, n1, n2, n3]
            omega
  · simp only [riskStats]
    have hpt : ∀ r : RiskRow,
        (!(["closed", "mitigated"].contains r.status)) =
          decide (¬(r.status = "mitigated" ∨ r.status = "closed")) := by
      intro r
      by_cases h1 : r.status = "closed" <;> by_cases h2 : r.status = "mitigated" <;>
        simp [h1, h2]
    rw [List.filter_congr (fun a _ => hpt a)]
  · have hsum : sumScores risks = (risks.map (fun r => r.risk_score)).sum := by
      simpa using Odyn.foldl_add_eq_sum (fun r : RiskRow => r.risk_score) risks 0
    simp only [riskStats, hsum]
  · norm_num [riskStats, sumScores, jsRound, mkRisk]

/-- Pointwise agreement of the statistics' low-band predicate with the
classifier. -/
lemma lowPred (s : Int) : decide (s ≤ 5) = (getRiskLevel s == "Low") := by
  unfold getRiskLevel; split_ifs <;> simp <;> omega

/-- Pointwise agreement of the statistics' medium-band predicate with
the classifier. -/
lemma medPred (s : Int) :
    (decide (5 < s) && decide (s ≤ 12)) = (getRiskLevel s == "Medium") := by
  unfold getRiskLevel; split_ifs <;> simp <;> omega

/-- Pointwise agreement of the statistics' high-band predicate with
the classifier. -/
lemma highPred (s : Int) :
    (decide (12 < s) && decide (s ≤ 20)) = (getRiskLevel s == "High") := by
  unfold getRiskLevel; split_ifs <;> simp <;> omega

/-- Pointwise agreement of the statistics' critical-band predicate
with the classifier. -/
lemma critPred (s : Int) : decide (20 < s) = (getRiskLevel s == "Critical") := by
  unfold getRiskLevel; split_ifs <;> simp <;> omega

/-- C10: the three separately coded band-threshold sets agree: a score
passes the risk-level filter for tag low/medium/high/critical iff the
classifier returns Low/Medium/High/Critical on it, and each per-band
statistics count counts exactly the records the classifier puts in
that band. -/
theorem bands_agree :
    (∀ s : Int,
      (matchesRiskLevel "low" s = true ↔ getRiskLevel s = "Low") ∧
      (matchesRiskLevel "medium" s = true ↔ getRiskLevel s = "Medium") ∧
      (matchesRiskLevel "high" s = true ↔ getRiskLevel s = "High") ∧
      (matchesRiskLevel "critical" s = true ↔ getRiskLevel s = "Critical")) ∧
    (∀ risks : List RiskRow,
      (riskStats risks).low =
        (risks.filter (fun r => getRiskLevel r.risk_score == "Low")).length ∧
      (riskStats risks).medium =
        (risks.filter (fun r => getRiskLevel r.risk_score == "Medium")).length ∧
      (riskStats risks).high =
        (risks.filter (fun r => getRiskLevel r.risk_score == "High")).length ∧
      (riskStats risks).critical =
        (risks.filter (fun r => getRiskLevel r.risk_score == "Critical")).length) := by
  constructor
  · intro s
    refine ⟨?_, ?_, ?_, ?_⟩ <;>
      · simp only [matchesRiskLevel, getRiskLevel]
        split_ifs <;> simp_all <;> omega
  · intro risks
    refine ⟨?_, ?_, ?_, ?_⟩ <;> simp only [riskStats]
    · rw [List.filter_congr (fun a _ => lowPred a.risk_score)]
    · rw [List.filter_congr (fun a _ => medPred a.risk_score)]
    · rw [List.filter_congr (fun a _ => highPred a.risk_score)]
    · rw [List.filter_congr (fun a _ => critPred a.risk_score)]

/-- C9: the audit emitter never propagates an error (its result is
always `.ok`, for every behaviour of the audit store); with no
organization scope it skips the write with a warning and attempts no
insert; with an organization scope it attempts exactly the expected
insert and merely records (`errorLogged`) whether the store rejected
it, still returning normally. -/
theorem logAuditEvent_contained {δ : Type} (userId : Option String)
    (profileOrg : Option String)
    (ins : AuditEventRec δ → Except String Unit)
    (action : String) (rid : Option String) (det : Option δ) :
    (∃ o, logAuditEvent userId profileOrg ins action rid det = Except.ok o) ∧
    logAuditEvent userId none ins action rid det =
      Except.ok { warnedNoOrg := true, attemptedWrite := none, errorLogged := false } ∧
    (∀ org : String,
      logAuditEvent userId (some org) ins action rid det =
        Except.ok { warnedNoOrg := false
                    attemptedWrite := some { user_id := userId, organization_id := org
                                             action := action, resource_type := "risk"
                                             resource_id := rid, details := det }
                    errorLogged :=
                      match ins { user_id := userId, organization_id := org
                                  action := action, resource_type := "risk"
                                  resource_id := rid, details := det } with
                      | .ok _ => false
                      | .error _ => true }) := by
  have key : ∀ org : String,
      logAuditEvent userId (some org) ins action rid det =
        Except.ok { warnedNoOrg := false
                    attemptedWrite := some ⟨userId, org, action, "risk", rid, det⟩
                    errorLogged :=
                      match ins ⟨userId, org, action, "risk", rid, det⟩ with
                      | .ok _ => false
                      | .error _ => true } := by
    intro org
    cases h : ins ⟨userId, org, action, "risk", rid, det⟩ <;>
      simp [logAuditEvent, h]
  refine ⟨?_, rfl, key⟩
  cases profileOrg with
  | none => exact ⟨_, rfl⟩
  | some org => exact ⟨_, key org⟩

/-- C7: a confirmed delete whose store delete succeeds, in an
organization scope, emits exactly one audit event — action
`risk_deleted`, details holding the snapshot captured from the store
before the delete — and removes the record from the collection; the
audit store's behaviour `auditInsert` is universally quantified, so a
failing audit write changes neither the emitted event nor the removal. -/
theorem handleDeleteRisk_audit (userId : Option String) (org : String)
    (auditInsert : AuditEventRec DeleteDetails → Except String Unit)
    (store : List RiskRow) (riskId riskTitle : String) :
    handleDeleteRisk true userId (some org) auditInsert (Except.ok ()) store
        riskId riskTitle =
      { risks := store.filter (fun r => !(r.id == riskId))
        events := [{ user_id := userId, organization_id := org
                     action := "risk_deleted", resource_type := "risk"
                     resource_id := some riskId
                     details := some { risk_title := riskTitle
                                       risk_details := preDeleteSnapshot store riskId } }]
        errorMsg := none } := by
  cases h : auditInsert
      ⟨userId, org, "risk_deleted", "risk", some riskId,
        some ⟨riskTitle, preDeleteSnapshot store riskId⟩⟩ <;>
    simp [handleDeleteRisk, logAuditEvent, h]

end Odyn.RiskManagement

namespace Odyn.AddAssetForm

/-- C1: the effective-score computation at asset creation: the total
reduction is the sum of the mitigations' `applied_risk_reduction_score`
values, the effective score is never negative, equals base − sum when
that difference is non-negative and 0 otherwise, and it is exactly the
`overall` score stored in the created asset row. -/
theorem effectiveRiskScore_spec (base : Int) (mitigations : List AppliedMitigation)
    (form : FormState) (profileOrg : Option String) (ai : AIRiskScore) :
    totalRiskReduction mitigations =
      (mitigations.map (fun m => m.applied_risk_reduction_score)).sum ∧
    0 ≤ effectiveRiskScore base mitigations ∧
    effectiveRiskScore base mitigations =
      (if 0 ≤ base - (mitigations.map (fun m => m.applied_risk_reduction_score)).sum
       then base - (mitigations.map (fun m => m.applied_risk_reduction_score)).sum
       else 0) ∧
    (finalAssetData form mitigations profileOrg ai).ai_risk_score.overall =
      effectiveRiskScore ai.overall mitigations := by
  have hred : totalRiskReduction mitigations =
      (mitigations.map (fun m => m.applied_risk_reduction_score)).sum := by
    simpa using
      Odyn.foldl_add_eq_sum (fun m : AppliedMitigation => m.applied_risk_reduction_score)
        mitigations 0
  refine ⟨hred, le_max_left 0 _, ?_, rfl⟩
  rw [effectiveRiskScore, hred]
  rcases le_or_lt 0 (base - (mitigations.map (fun m => m.applied_risk_reduction_score)).sum)
    with h | h
  · rw [if_pos h, max_eq_right h]
  · rw [if_neg (not_le.mpr h), max_eq_left (le_of_lt h)]

/-- C5 counterexample: creating an asset with an empty mitigation
list stores `none` (the null sentinel) in the `mitigations` field, not
the empty sequence `some []` the claim asserts. -/
theorem finalAssetData_empty_mitigations_cex :
    (finalAssetData sampleForm [] (some "org-1") defaultAiRiskScore).mitigations = none ∧
    (none : Option (List AppliedMitigation)) ≠ some [] := by
  exact ⟨rfl, by simp⟩

/-- C5 (amended): the stored `mitigations` field is the null/absent
sentinel when the applied-mitigation list is empty, and the list
itself when it is non-empty — the empty-sequence versus not-yet-
evaluated distinction is not preserved at creation. -/
theorem finalAssetData_mitigations_field (form : FormState)
    (profileOrg : Option String) (ai : AIRiskScore) :
    (finalAssetData form [] profileOrg ai).mitigations = none ∧
    (∀ (m : AppliedMitigation) (ms : List AppliedMitigation),
      (finalAssetData form (m :: ms) profileOrg ai).mitigations = some (m :: ms)) := by
  refine ⟨rfl, ?_⟩
  intro m ms
  simp [finalAssetData]

/-- C6: the effective-score write at creation retains the ungated base
score (`originalScore`) and the total reduction
(`totalRiskReduction`) alongside the effective `overall` score, both
in the computed risk-score record and in the stored asset row. -/
theorem updatedRiskScore_retains (ai : AIRiskScore)
    (mitigations : List AppliedMitigation) (form : FormState)
    (profileOrg : Option String) :
    (updatedRiskScore ai mitigations).originalScore = ai.overall ∧
    (updatedRiskScore ai mitigations).totalRiskReduction = totalRiskReduction mitigations ∧
    (updatedRiskScore ai mitigations).overall = effectiveRiskScore ai.overall mitigations ∧
    (finalAssetData form mitigations profileOrg ai).ai_risk_score.originalScore = ai.overall ∧
    (finalAssetData form mitigations profileOrg ai).ai_risk_score.totalRiskReduction =
      totalRiskReduction mitigations := by
  exact ⟨rfl, rfl, rfl, rfl, rfl⟩

/-- C8: if the estimator call fails during asset creation (any error
value), a validated form still produces a successful create whose risk
score is built from the caller-supplied default base-score structure:
the failure never escapes the create flow. -/
theorem handleSubmit_estimator_fallback (form : FormState)
    (mitigations : List AppliedMitigation) (profileOrg : Option String)
    (e : String) (randPred : Predictions)
    (h1 : form.name ≠ "") (h2 : form.location.city ≠ "")
    (h3 : form.location.country ≠ "") (h4 : form.responsible_officer.name ≠ "") :
    handleSubmit form mitigations profileOrg (Except.error e) randPred =
      Except.ok (finalAssetData form mitigations profileOrg form.ai_risk_score) := by
  rw [handleSubmit, if_neg]
  · rfl
  · simp [h1, h2, h3, h4]

/-- Witness for C8: the concrete validated form with a failing
estimator call produces a successful create from the default score. -/
theorem handleSubmit_estimator_fallback_witness :
    sampleForm.name ≠ "" ∧ sampleForm.location.city ≠ "" ∧
    sampleForm.location.country ≠ "" ∧ sampleForm.responsible_officer.name ≠ "" ∧
    handleSubmit sampleForm [] (some "org-1") (Except.error "estimator timeout")
        { nextWeek := 26, nextMonth := 24 } =
      Except.ok (finalAssetData sampleForm [] (some "org-1") sampleForm.ai_risk_score) :=
  ⟨by decide, by decide, by decide, by decide,
    handleSubmit_estimator_fallback sampleForm [] (some "org-1") "estimator timeout"
      { nextWeek := 26, nextMonth := 24 }
      (by decide) (by decide) (by decide) (by decide)⟩

end Odyn.AddAssetForm
